import Mathlib

/-!
Shallow embedding of `Ride_Sharing_System.cpp` (class-based ride sharing
system): the `Ride` class hierarchy (`Ride`, `StandardRide`, `PremiumRide`),
`Driver`, `Rider`, the polymorphism demonstration routine, and `main`.
C++ `double` values are modelled as exact rationals (`ℚ`); console output is
modelled as a list of structured lines; `std::shared_ptr<Ride>` handles are
modelled by the sum type `RideRef`, whose pattern match plays the role of
virtual dispatch.
-/

namespace RideSharing

/-- One line of console output.  Each constructor corresponds to one
`std::cout << ... << std::endl` statement of the source; numeric payloads
carry the exact value that the statement streams, and the fare/earnings
lines carry the text produced by `std::fixed << std::setprecision(2)`. -/
inductive Line where
  | text (s : String)
  | rideID (id : ℤ)
  | pickup (s : String)
  | dropoff (s : String)
  | distance (d : ℚ)
  | fareLine (s : String)
  | luxuryMultiplier (m : ℚ)
  | driverID (id : ℤ)
  | nameLine (s : String)
  | rating (r : ℚ)
  | rideCountLine (n : ℕ)
  | totalEarningsLine (s : String)
  | riderHeader (nm : String) (id : ℤ)
  | totalRidesLine (n : ℕ)
  | rideIndexLine (n : ℕ)
  | totalSpentLine (s : String)
  | rideTypeHeader (s : String)
  | totalFaresLine (s : String)
  | confirmLine (nm : String) (id : ℤ)
  deriving Repr, DecidableEq

/-- Render a signed number of cents as a fixed two-decimal string,
e.g. `3100 ↦ "31.00"`. -/
def centsToString (n : ℤ) : String :=
  let m := n.natAbs
  let sign := if n < 0 then "-" else ""
  let frac := m % 100
  sign ++ toString (m / 100) ++ "." ++ (if frac < 10 then "0" else "") ++ toString frac

/-- Model of `std::fixed << std::setprecision(2)` applied to a value:
round to the nearest hundredth and print with exactly two decimals. -/
def formatFixed2 (q : ℚ) : String :=
  centsToString (round (q * 100))

/-- The `Ride` base class: ride identity, locations, distance and the
protected `baseFareRate`, all fixed at construction (no setters). -/
structure Ride where
  rideID : ℤ
  pickupLocation : String
  dropoffLocation : String
  distance : ℚ
  baseFareRate : ℚ
  deriving Repr, DecidableEq

/-- `Ride::Ride(id, pickup, dropoff, dist)`: stores all arguments
unconditionally and initialises `baseFareRate` to `2.0`. -/
def Ride.make (id : ℤ) (pickup dropoff : String) (dist : ℚ) : Ride :=
  { rideID := id, pickupLocation := pickup, dropoffLocation := dropoff,
    distance := dist, baseFareRate := 2 }

/-- `Ride::fare()` (the base virtual implementation):
`distance * baseFareRate`. -/
def Ride.fare (r : Ride) : ℚ :=
  r.distance * r.baseFareRate

/-- `Ride::getRideType()`: the base implementation returns `"Standard"`. -/
def Ride.getRideType (_ : Ride) : String :=
  "Standard"

/-- The body of `Ride::rideDetails()` with the virtually dispatched value of
`fare()` passed in: prints id, pickup, dropoff, distance, and the fare
formatted to two decimal places. -/
def Ride.detailBlock (r : Ride) (fareVal : ℚ) : List Line :=
  [Line.rideID r.rideID, Line.pickup r.pickupLocation,
   Line.dropoff r.dropoffLocation, Line.distance r.distance,
   Line.fareLine (formatFixed2 fareVal)]

/-- `StandardRide`, a subclass of `Ride`. -/
structure StandardRide extends Ride
  deriving Repr, DecidableEq

/-- `StandardRide::StandardRide`: delegates to the base constructor, then
sets `baseFareRate = 2.0` in its body. -/
def StandardRide.make (id : ℤ) (pickup dropoff : String) (dist : ℚ) :
    StandardRide :=
  { Ride.make id pickup dropoff dist with baseFareRate := 2 }

/-- `StandardRide::fare()`: `getDistance() * baseFareRate`. -/
def StandardRide.fare (s : StandardRide) : ℚ :=
  s.toRide.distance * s.toRide.baseFareRate

/-- `StandardRide::getRideType()`: returns `"Standard"`. -/
def StandardRide.getRideType (_ : StandardRide) : String :=
  "Standard"

/-- `StandardRide` does not override `rideDetails`; a direct call runs the
inherited `Ride::rideDetails`, whose inner `fare()` call dispatches to
`StandardRide::fare`. -/
def StandardRide.rideDetails (s : StandardRide) : List Line :=
  s.toRide.detailBlock s.fare

/-- `PremiumRide`, a subclass of `Ride` with a private `luxuryMultiplier`. -/
structure PremiumRide extends Ride where
  luxuryMultiplier : ℚ
  deriving Repr, DecidableEq

/-- `PremiumRide::PremiumRide`: delegates to the base constructor,
initialises `luxuryMultiplier` to `1.8`, then sets `baseFareRate = 3.5`
in its body. -/
def PremiumRide.make (id : ℤ) (pickup dropoff : String) (dist : ℚ) :
    PremiumRide :=
  { Ride.make id pickup dropoff dist with
    baseFareRate := 3.5, luxuryMultiplier := 1.8 }

/-- `PremiumRide::fare()`: `getDistance() * baseFareRate * luxuryMultiplier`. -/
def PremiumRide.fare (p : PremiumRide) : ℚ :=
  p.toRide.distance * p.toRide.baseFareRate * p.luxuryMultiplier

/-- `PremiumRide::getRideType()`: returns `"Premium"`. -/
def PremiumRide.getRideType (_ : PremiumRide) : String :=
  "Premium"

/-- `PremiumRide::rideDetails()`: prints the banner, calls
`Ride::rideDetails()` (whose inner `fare()` still dispatches to
`PremiumRide::fare`), then prints the luxury-multiplier line. -/
def PremiumRide.rideDetails (p : PremiumRide) : List Line :=
  Line.text "=== PREMIUM RIDE ===" :: p.toRide.detailBlock p.fare
    ++ [Line.luxuryMultiplier p.luxuryMultiplier]

/-- A `std::shared_ptr<Ride>`-typed handle: points at an object of one of
the three dynamic types.  Virtual dispatch on the handle is the pattern
match on this type. -/
inductive RideRef where
  | base (r : Ride)
  | standard (s : StandardRide)
  | premium (p : PremiumRide)
  deriving Repr, DecidableEq

/-- `ride->fare()` through a `Ride`-typed handle: virtual dispatch. -/
def RideRef.fare : RideRef → ℚ
  | .base r => r.fare
  | .standard s => s.fare
  | .premium p => p.fare

/-- `ride->getRideType()` through a `Ride`-typed handle: virtual dispatch. -/
def RideRef.getRideType : RideRef → String
  | .base r => r.getRideType
  | .standard s => s.getRideType
  | .premium p => p.getRideType

/-- `ride->rideDetails()` through a `Ride`-typed handle: virtual dispatch. -/
def RideRef.rideDetails : RideRef → List Line
  | .base r => r.detailBlock r.fare
  | .standard s => s.rideDetails
  | .premium p => p.rideDetails

/-- The `Driver` class: identity, name, rating and the private vector of
assigned ride handles. -/
structure Driver where
  driverID : ℤ
  driverName : String
  rating : ℚ
  assignedRides : List RideRef
  deriving Repr, DecidableEq

/-- `Driver::Driver(id, driverName, driverRating)`: the ride vector starts
empty. -/
def Driver.make (id : ℤ) (driverName : String) (driverRating : ℚ) : Driver :=
  { driverID := id, driverName := driverName, rating := driverRating,
    assignedRides := [] }

/-- `Driver::addRide(ride)`: `assignedRides.push_back(ride)`. -/
def Driver.addRide (d : Driver) (ride : RideRef) : Driver :=
  { d with assignedRides := d.assignedRides ++ [ride] }

/-- The accumulation loop inside `Driver::getDriverInfo`:
`totalEarnings += ride->fare()` over the assigned rides, starting at `0.0`. -/
def Driver.totalEarnings (d : Driver) : ℚ :=
  d.assignedRides.foldl (fun acc ride => acc + ride.fare) 0

/-- `Driver::getDriverInfo()`: prints the header, id, name, rating, ride
count, and total earnings (recomputed, formatted to two decimals). -/
def Driver.getDriverInfo (d : Driver) : List Line :=
  [Line.text "=== DRIVER INFORMATION ===", Line.driverID d.driverID,
   Line.nameLine d.driverName, Line.rating d.rating,
   Line.rideCountLine d.assignedRides.length,
   Line.totalEarningsLine (formatFixed2 d.totalEarnings)]

/-- The `Rider` class: identity, name and the private vector of requested
ride handles. -/
structure Rider where
  riderID : ℤ
  riderName : String
  requestedRides : List RideRef
  deriving Repr, DecidableEq

/-- `Rider::Rider(id, riderName)`: the ride vector starts empty. -/
def Rider.make (id : ℤ) (riderName : String) : Rider :=
  { riderID := id, riderName := riderName, requestedRides := [] }

/-- `Rider::requestRide(ride)`: `requestedRides.push_back(ride)` (the state
change; the confirmation message is `Rider.requestRideMsg`). -/
def Rider.requestRide (r : Rider) (ride : RideRef) : Rider :=
  { r with requestedRides := r.requestedRides ++ [ride] }

/-- The confirmation line printed by `Rider::requestRide`. -/
def Rider.requestRideMsg (r : Rider) : Line :=
  Line.confirmLine r.riderName r.riderID

/-- The accumulation loop inside `Rider::viewRides`:
`totalSpent += requestedRides[i]->fare()`, starting at `0.0`. -/
def Rider.totalSpent (r : Rider) : ℚ :=
  r.requestedRides.foldl (fun acc ride => acc + ride.fare) 0

/-- The per-ride loop body of `Rider::viewRides`: for ride `i` (0-based),
print the `--- Ride (i+1) ---` separator then the ride's detail block. -/
def viewRidesLoop : ℕ → List RideRef → List Line
  | _, [] => []
  | i, ride :: rest =>
      Line.rideIndexLine (i + 1) :: ride.rideDetails ++ viewRidesLoop (i + 1) rest

/-- `Rider::viewRides()`: header, rider line, ride count, each ride's detail
block in request order, and the total spent (formatted to two decimals). -/
def Rider.viewRides (r : Rider) : List Line :=
  [Line.text "=== RIDER RIDE HISTORY ===",
   Line.riderHeader r.riderName r.riderID,
   Line.totalRidesLine r.requestedRides.length]
    ++ viewRidesLoop 0 r.requestedRides
    ++ [Line.totalSpentLine (formatFixed2 r.totalSpent)]

/-- The accumulation loop inside `demonstratePolymorphism`:
`totalFares += ride->fare()`, starting at `0.0`. -/
def totalFares (rides : List RideRef) : ℚ :=
  rides.foldl (fun acc ride => acc + ride.fare) 0

/-- `demonstratePolymorphism(rides)`: for each handle print the type header
(via virtual `getRideType`) and the detail block (via virtual
`rideDetails`), accumulating the grand total of fares. -/
def demonstratePolymorphism (rides : List RideRef) : List Line :=
  [Line.text "=== POLYMORPHISM DEMONSTRATION ===",
   Line.text "Processing different ride types polymorphically:"]
    ++ (rides.map (fun ride =>
          Line.rideTypeHeader ride.getRideType :: ride.rideDetails)).flatten
    ++ [Line.totalFaresLine (formatFixed2 (totalFares rides))]

/-- The model of `main()`: the exact straight-line script of the source —
construct the four rides, two drivers and two riders, assign and request
rides, print the reports and the polymorphism demonstration — paired with
the program's exit status (`return 0`). -/
def runMain : List Line × ℤ :=
  let standardRide1 := RideRef.standard (StandardRide.make 1 "Downtown" "Airport" 15.5)
  let premiumRide1 := RideRef.premium (PremiumRide.make 2 "Hotel" "Convention Center" 8.2)
  let standardRide2 := RideRef.standard (StandardRide.make 3 "Mall" "University" 12)
  let premiumRide2 := RideRef.premium (PremiumRide.make 4 "Airport" "Luxury Resort" 25.8)
  let driver1 := Driver.make 101 "John Smith" 4.8
  let driver2 := Driver.make 102 "Sarah Johnson" 4.9
  let rider1 := Rider.make 201 "Alice Brown"
  let rider2 := Rider.make 202 "Bob Wilson"
  let driver1 := (driver1.addRide standardRide1).addRide premiumRide1
  let driver2 := (driver2.addRide standardRide2).addRide premiumRide2
  let requestLines :=
    [rider1.requestRideMsg, rider1.requestRideMsg,
     rider2.requestRideMsg, rider2.requestRideMsg]
  let rider1 := (rider1.requestRide standardRide1).requestRide premiumRide2
  let rider2 := (rider2.requestRide premiumRide1).requestRide standardRide2
  let allRides := [standardRide1, premiumRide1, standardRide2, premiumRide2]
  ([Line.text "=== RIDE SHARING SYSTEM - C++ IMPLEMENTATION ===",
    Line.text "Demonstrating OOP Principles: Encapsulation, Inheritance, and Polymorphism"]
    ++ requestLines
    ++ driver1.getDriverInfo ++ driver2.getDriverInfo
    ++ rider1.viewRides ++ rider2.viewRides
    ++ demonstratePolymorphism allRides, 0)

/-! ### Helper lemmas -/

theorem foldl_add_fare (l : List RideRef) (a : ℚ) :
    l.foldl (fun acc ride => acc + ride.fare) a = a + (l.map RideRef.fare).sum := by
  induction l generalizing a with
  | nil => simp
  | cons x xs ih => simp [List.foldl_cons, ih, add_assoc]

theorem Driver.totalEarnings_eq_sum (d : Driver) :
    d.totalEarnings = (d.assignedRides.map RideRef.fare).sum := by
  simp [Driver.totalEarnings, foldl_add_fare]

theorem Driver.foldl_addRide (l : List RideRef) (d : Driver) :
    (l.foldl Driver.addRide d).assignedRides = d.assignedRides ++ l := by
  induction l generalizing d with
  | nil => simp
  | cons x xs ih => simp [List.foldl_cons, ih, Driver.addRide]

theorem Rider.totalSpent_eq_sum (r : Rider) :
    r.totalSpent = (r.requestedRides.map RideRef.fare).sum := by
  simp [Rider.totalSpent, foldl_add_fare]

theorem Rider.foldl_requestRide (l : List RideRef) (r : Rider) :
    (l.foldl Rider.requestRide r).requestedRides = r.requestedRides ++ l := by
  induction l generalizing r with
  | nil => simp
  | cons x xs ih => simp [List.foldl_cons, ih, Rider.requestRide]

/-! ### Claims -/

/-- C1: for every `StandardRide` constructed with non-negative distance `d`,
`fare()` returns `2.0 * d`. -/
theorem c1_standard_fare (id : ℤ) (pickup dropoff : String) (d : ℚ)
    (_h : 0 ≤ d) :
    (StandardRide.make id pickup dropoff d).fare = 2 * d := by
  simp [StandardRide.make, StandardRide.fare, Ride.make, mul_comm]

/-- Witness for C1 at the `main` scenario's first ride (distance 15.5). -/
theorem c1_standard_fare_witness :
    (0 : ℚ) ≤ 15.5 ∧
      (StandardRide.make 1 "Downtown" "Airport" 15.5).fare = 2 * 15.5 :=
  ⟨by norm_num, c1_standard_fare 1 "Downtown" "Airport" 15.5 (by norm_num)⟩

/-- C2: for every `PremiumRide` constructed with non-negative distance `d`,
`fare()` returns `3.5 * d * 1.8`, which equals `6.3 * d`. -/
theorem c2_premium_fare (id : ℤ) (pickup dropoff : String) (d : ℚ)
    (_h : 0 ≤ d) :
    (PremiumRide.make id pickup dropoff d).fare = 3.5 * d * 1.8 ∧
      (3.5 : ℚ) * d * 1.8 = 6.3 * d := by
  constructor
  · simp only [PremiumRide.fare, PremiumRide.make, Ride.make]
    ring
  · ring_nf

/-- Witness for C2 at the `main` scenario's second ride (distance 8.2). -/
theorem c2_premium_fare_witness :
    (0 : ℚ) ≤ 8.2 ∧
      ((PremiumRide.make 2 "Hotel" "Convention Center" 8.2).fare
          = 3.5 * 8.2 * 1.8 ∧
        (3.5 : ℚ) * 8.2 * 1.8 = 6.3 * 8.2) :=
  ⟨by norm_num, c2_premium_fare 2 "Hotel" "Convention Center" 8.2 (by norm_num)⟩

/-- C3 counterexample: the `Ride` constructor accepts a negative distance
unconditionally, so the constructed ride violates `distance ≥ 0`. -/
theorem c3_invariant_counterexample :
    ¬ (0 ≤ (Ride.make 1 "A" "B" (-1)).distance) := by
  norm_num [Ride.make]

/-- C3 (amended): every constructed ride (base, standard or premium) has a
positive fare rate, unconditionally; and since constructors store the
distance argument unvalidated, for every constructor input the constructed
ride satisfies `distance ≥ 0` if and only if the argument is non-negative. -/
theorem c3_invariant_amended (id : ℤ) (pickup dropoff : String) (d : ℚ) :
    0 < (Ride.make id pickup dropoff d).baseFareRate ∧
      0 < (StandardRide.make id pickup dropoff d).toRide.baseFareRate ∧
      0 < (PremiumRide.make id pickup dropoff d).toRide.baseFareRate ∧
      (0 ≤ (Ride.make id pickup dropoff d).distance ↔ 0 ≤ d) ∧
      (0 ≤ (StandardRide.make id pickup dropoff d).toRide.distance ↔ 0 ≤ d) ∧
      (0 ≤ (PremiumRide.make id pickup dropoff d).toRide.distance ↔ 0 ≤ d) := by
  refine ⟨by norm_num [Ride.make], by norm_num [StandardRide.make, Ride.make],
    by norm_num [PremiumRide.make, Ride.make], ?_, ?_, ?_⟩ <;>
    simp [Ride.make, StandardRide.make, PremiumRide.make]

/-- Witness for C3 (amended) at the negative distance -1: the fare rates are
still positive, and the biconditionals transport the argument's negativity
to the stored distance of each constructed ride. -/
theorem c3_invariant_amended_witness :
    0 < (Ride.make 1 "A" "B" (-1)).baseFareRate ∧
      0 < (StandardRide.make 1 "A" "B" (-1)).toRide.baseFareRate ∧
      0 < (PremiumRide.make 1 "A" "B" (-1)).toRide.baseFareRate ∧
      (0 ≤ (Ride.make 1 "A" "B" (-1)).distance ↔ 0 ≤ (-1 : ℚ)) ∧
      (0 ≤ (StandardRide.make 1 "A" "B" (-1)).toRide.distance ↔ 0 ≤ (-1 : ℚ)) ∧
      (0 ≤ (PremiumRide.make 1 "A" "B" (-1)).toRide.distance ↔ 0 ≤ (-1 : ℚ)) :=
  c3_invariant_amended 1 "A" "B" (-1)

/-- C4: for every `Driver` and every finite sequence of rides passed to
`addRide`, the total earnings reported by `getDriverInfo` equals the sum of
`fare()` over those rides, and the total is invariant under any permutation
of the `addRide` calls. -/
theorem c4_driver_earnings (id : ℤ) (nm : String) (rt : ℚ)
    (l₁ l₂ : List RideRef) (h : l₁.Perm l₂) :
    (l₁.foldl Driver.addRide (Driver.make id nm rt)).totalEarnings
        = (l₁.map RideRef.fare).sum ∧
      Line.totalEarningsLine (formatFixed2 ((l₁.map RideRef.fare).sum))
        ∈ (l₁.foldl Driver.addRide (Driver.make id nm rt)).getDriverInfo ∧
      (l₁.foldl Driver.addRide (Driver.make id nm rt)).totalEarnings
        = (l₂.foldl Driver.addRide (Driver.make id nm rt)).totalEarnings := by
  have hsum : ∀ l : List RideRef,
      (l.foldl Driver.addRide (Driver.make id nm rt)).totalEarnings
        = (l.map RideRef.fare).sum := by
    intro l
    rw [Driver.totalEarnings_eq_sum, Driver.foldl_addRide]
    simp [Driver.make]
  refine ⟨hsum l₁, ?_, ?_⟩
  · simp [Driver.getDriverInfo, hsum l₁]
  · rw [hsum l₁, hsum l₂, (h.map RideRef.fare).sum_eq]

/-- Witness for C4: two concrete rides added in both orders. -/
theorem c4_driver_earnings_witness :
    ([RideRef.standard (StandardRide.make 1 "Downtown" "Airport" 15.5),
        RideRef.premium (PremiumRide.make 2 "Hotel" "Convention Center" 8.2)].foldl
          Driver.addRide (Driver.make 101 "John Smith" 4.8)).totalEarnings
        = ([RideRef.standard (StandardRide.make 1 "Downtown" "Airport" 15.5),
            RideRef.premium (PremiumRide.make 2 "Hotel" "Convention Center" 8.2)].map
              RideRef.fare).sum ∧
      Line.totalEarningsLine (formatFixed2
          (([RideRef.standard (StandardRide.make 1 "Downtown" "Airport" 15.5),
              RideRef.premium (PremiumRide.make 2 "Hotel" "Convention Center" 8.2)].map
                RideRef.fare).sum))
        ∈ ([RideRef.standard (StandardRide.make 1 "Downtown" "Airport" 15.5),
            RideRef.premium (PremiumRide.make 2 "Hotel" "Convention Center" 8.2)].foldl
              Driver.addRide (Driver.make 101 "John Smith" 4.8)).getDriverInfo ∧
      ([RideRef.standard (StandardRide.make 1 "Downtown" "Airport" 15.5),
          RideRef.premium (PremiumRide.make 2 "Hotel" "Convention Center" 8.2)].foldl
            Driver.addRide (Driver.make 101 "John Smith" 4.8)).totalEarnings
        = ([RideRef.premium (PremiumRide.make 2 "Hotel" "Convention Center" 8.2),
            RideRef.standard (StandardRide.make 1 "Downtown" "Airport" 15.5)].foldl
              Driver.addRide (Driver.make 101 "John Smith" 4.8)).totalEarnings :=
  c4_driver_earnings 101 "John Smith" 4.8 _ _ (List.Perm.swap _ _ _)

/-- C5: after `N` `requestRide` calls a `Rider`'s ride count is `N` and the
total spent reported by `viewRides` is the sum of `fare()` over the rides
passed in; a fresh `Rider` reports count 0 and total spent 0. -/
theorem c5_rider_count_spend (id : ℤ) (nm : String) (l : List RideRef) :
    (l.foldl Rider.requestRide (Rider.make id nm)).requestedRides.length
        = l.length ∧
      (l.foldl Rider.requestRide (Rider.make id nm)).totalSpent
        = (l.map RideRef.fare).sum ∧
      Line.totalSpentLine (formatFixed2 ((l.map RideRef.fare).sum))
        ∈ (l.foldl Rider.requestRide (Rider.make id nm)).viewRides ∧
      Line.totalRidesLine l.length
        ∈ (l.foldl Rider.requestRide (Rider.make id nm)).viewRides ∧
      (Rider.make id nm).requestedRides.length = 0 ∧
      (Rider.make id nm).totalSpent = 0 := by
  have hlen : (l.foldl Rider.requestRide (Rider.make id nm)).requestedRides
      = l := by
    rw [Rider.foldl_requestRide]
    simp [Rider.make]
  have hspent : (l.foldl Rider.requestRide (Rider.make id nm)).totalSpent
      = (l.map RideRef.fare).sum := by
    rw [Rider.totalSpent_eq_sum, hlen]
  refine ⟨by rw [hlen], hspent, ?_, ?_, rfl, rfl⟩
  · simp [Rider.viewRides, hspent]
  · simp [Rider.viewRides, hlen]

/-- C6: for every ride variant, `fare()`, `rideDetails()` and
`getRideType()` invoked through a `Ride`-typed handle give exactly the
result of the direct call on the concrete variant, and
`demonstratePolymorphism` prints, for every handle in its input, the
variant-specific type header. -/
theorem c6_dispatch_no_loss (s : StandardRide) (p : PremiumRide)
    (rides : List RideRef) :
    (RideRef.standard s).fare = s.fare ∧
      (RideRef.standard s).rideDetails = s.rideDetails ∧
      (RideRef.standard s).getRideType = s.getRideType ∧
      (RideRef.premium p).fare = p.fare ∧
      (RideRef.premium p).rideDetails = p.rideDetails ∧
      (RideRef.premium p).getRideType = p.getRideType ∧
      (∀ ride ∈ rides,
        Line.rideTypeHeader ride.getRideType ∈ demonstratePolymorphism rides) := by
  refine ⟨rfl, rfl, rfl, rfl, rfl, rfl, ?_⟩
  intro ride hr
  have h3 : Line.rideTypeHeader ride.getRideType
      ∈ (rides.map (fun r =>
          Line.rideTypeHeader r.getRideType :: r.rideDetails)).flatten :=
    List.mem_flatten.2 ⟨_, List.mem_map_of_mem _ hr, List.mem_cons_self _ _⟩
  simp only [demonstratePolymorphism]
  exact List.mem_append_left _ (List.mem_append_right _ h3)

/-- Witness for C6 at a concrete mixed ride sequence. -/
theorem c6_dispatch_no_loss_witness :
    (RideRef.standard (StandardRide.make 3 "Mall" "University" 12)).fare
        = (StandardRide.make 3 "Mall" "University" 12).fare ∧
      Line.rideTypeHeader
          (RideRef.standard (StandardRide.make 3 "Mall" "University" 12)).getRideType
        ∈ demonstratePolymorphism
            [RideRef.standard (StandardRide.make 3 "Mall" "University" 12),
             RideRef.premium (PremiumRide.make 4 "Airport" "Luxury Resort" 25.8)] :=
  ⟨(c6_dispatch_no_loss (StandardRide.make 3 "Mall" "University" 12)
      (PremiumRide.make 4 "Airport" "Luxury Resort" 25.8) []).1,
   (c6_dispatch_no_loss (StandardRide.make 3 "Mall" "University" 12)
      (PremiumRide.make 4 "Airport" "Luxury Resort" 25.8)
      [RideRef.standard (StandardRide.make 3 "Mall" "University" 12),
       RideRef.premium (PremiumRide.make 4 "Airport" "Luxury Resort" 25.8)]).2.2.2.2.2.2
     _ (List.mem_cons_self _ _)⟩

/-- C7: `PremiumRide::rideDetails` output is the banner line, then the base
`Ride` detail block (with the virtually dispatched premium fare formatted to
two decimals), then the luxury-multiplier line appended at the end. -/
theorem c7_premium_details_structure (p : PremiumRide) :
    (RideRef.premium p).rideDetails
      = Line.text "=== PREMIUM RIDE ===" :: p.toRide.detailBlock p.fare
          ++ [Line.luxuryMultiplier p.luxuryMultiplier] := rfl

/-- C8: no operation of the system can fail for any input — constructors
store their arguments unconditionally and `addRide`/`requestRide` always
append — and the modelled `main` finishes with exit status 0. -/
theorem c8_no_failure_exit_zero :
    runMain.2 = 0 ∧
      (∀ (d : Driver) (ride : RideRef),
        (d.addRide ride).assignedRides = d.assignedRides ++ [ride]) ∧
      (∀ (r : Rider) (ride : RideRef),
        (r.requestRide ride).requestedRides = r.requestedRides ++ [ride]) ∧
      (∀ (id : ℤ) (pickup dropoff : String) (dist : ℚ),
        (Ride.make id pickup dropoff dist).distance = dist ∧
          (StandardRide.make id pickup dropoff dist).toRide.distance = dist ∧
          (PremiumRide.make id pickup dropoff dist).toRide.distance = dist) :=
  ⟨rfl, fun _ _ => rfl, fun _ _ => rfl, fun _ _ _ _ => ⟨rfl, rfl, rfl⟩⟩

/-- C9: for every handle, the `Fare:` line of the detail block carries the
value of that handle's own virtually dispatched `fare()`; in particular a
`PremiumRide`'s detail block (produced by the inherited base formatting)
shows the premium fare including the 1.8 luxury multiplier. -/
theorem c9_detail_fare_is_dispatched (rr : RideRef) (p : PremiumRide) :
    Line.fareLine (formatFixed2 rr.fare) ∈ rr.rideDetails ∧
      Line.fareLine
          (formatFixed2
            (p.toRide.distance * p.toRide.baseFareRate * p.luxuryMultiplier))
        ∈ (RideRef.premium p).rideDetails := by
  constructor
  · cases rr <;>
      simp [RideRef.rideDetails, RideRef.fare, Ride.detailBlock,
        StandardRide.rideDetails, PremiumRide.rideDetails]
  · simp [RideRef.rideDetails, PremiumRide.rideDetails, PremiumRide.fare,
      Ride.detailBlock]

/-- C10: the base `Ride` class is directly constructible (not abstract) and
behaves exactly like a `StandardRide` built from the same arguments:
`fare()` is `distance * 2.0`, `getRideType()` is `"Standard"`, and the
detail block agrees. -/
theorem c10_base_ride_is_standard (id : ℤ) (pickup dropoff : String)
    (d : ℚ) :
    (Ride.make id pickup dropoff d).fare = d * 2 ∧
      (RideRef.base (Ride.make id pickup dropoff d)).fare
        = (RideRef.standard (StandardRide.make id pickup dropoff d)).fare ∧
      (Ride.make id pickup dropoff d).getRideType = "Standard" ∧
      (RideRef.base (Ride.make id pickup dropoff d)).getRideType
        = (RideRef.standard (StandardRide.make id pickup dropoff d)).getRideType ∧
      (RideRef.base (Ride.make id pickup dropoff d)).rideDetails
        = (RideRef.standard (StandardRide.make id pickup dropoff d)).rideDetails :=
  ⟨rfl, rfl, rfl, rfl, rfl⟩

end RideSharing
